import Mathlib

/-!
Verification of the BLE packet decoder, session-assembly state machine,
gesture statistics and inference-client adapter of the abracadabra_app
repository. Definitions are shallow embeddings of the TypeScript source
(the handleBLEData handler and analyzeGesture function of the full screen
revision, and GestureAPI.ts). JavaScript numbers are modelled as rationals;
Math.sqrt is treated as an abstract function parameter (the claims settled
here do not depend on its values). Uint8Array/DataView reads are modelled
as little-endian reads over a list of bytes.
-/

namespace Abracadabra

/-- DataView.getUint8: byte at offset i (out-of-range reads as 0; inputs are bytes). -/
def byteAt (bytes : List Nat) (i : Nat) : Nat := (bytes.getD i 0) % 256

/-- DataView.getUint16 little-endian. -/
def readU16 (bytes : List Nat) (i : Nat) : Nat :=
  byteAt bytes i + 256 * byteAt bytes (i + 1)

/-- DataView.getUint32 little-endian. -/
def readU32 (bytes : List Nat) (i : Nat) : Nat :=
  byteAt bytes i + 256 * byteAt bytes (i + 1)
    + 65536 * byteAt bytes (i + 2) + 16777216 * byteAt bytes (i + 3)

/-- DataView.getInt16 little-endian: two-complement signed 16-bit read. -/
def readI16 (bytes : List Nat) (i : Nat) : Int :=
  let u := readU16 bytes i
  if u < 32768 then (u : Int) else (u : Int) - 65536

/-- JavaScript Number.toString(16) on an unsigned integer: lowercase hex digits. -/
def toHexString (n : Nat) : String := String.mk (Nat.toDigits 16 n)

/-- One 3-axis reading, components in JS number semantics modelled as rationals. -/
structure Axes where
  x : ℚ
  y : ℚ
  z : ℚ
deriving DecidableEq, Repr, Inhabited

/-- The BLEDataPoint interface of the screen source. -/
structure BLEDataPoint where
  timestamp : Nat
  sampleId : Nat
  acceleration : Axes
  gyroscope : Axes
  recordingHash : String
deriving DecidableEq, Repr, Inhabited

/-- The GestureSession interface of the screen source. -/
structure GestureSession where
  id : String
  startTime : Nat
  endTime : Option Nat
  isActive : Bool
  deviceId : String
  samplesReceived : Nat
deriving DecidableEq, Repr

/-- The RealtimeDataPoint interface (real-time graph buffer entries). -/
structure RealtimeDataPoint where
  time : Nat
  accMagnitude : ℚ
  gyroMagnitude : ℚ
  accX : ℚ
  accY : ℚ
  accZ : ℚ
  gyroX : ℚ
  gyroY : ℚ
  gyroZ : ℚ
deriving DecidableEq, Repr

/-- The decoding of the six sensor fields and header fields of a SENSOR_DATA
packet, exactly as read in handleBLEData (offsets 2,4,6,8,10,12,14,16;
acceleration raw divided by 1000, gyroscope raw divided by 10; the
recordingHash string is the hex rendering of the uint32 read at offset 16,
which overlaps the gyroscope-Z bytes). -/
def decodeDataPoint (bytes : List Nat) : BLEDataPoint :=
  { timestamp := readU16 bytes 2
    sampleId := readU16 bytes 4
    acceleration :=
      { x := (readI16 bytes 6 : ℚ) / 1000
        y := (readI16 bytes 8 : ℚ) / 1000
        z := (readI16 bytes 10 : ℚ) / 1000 }
    gyroscope :=
      { x := (readI16 bytes 12 : ℚ) / 10
        y := (readI16 bytes 14 : ℚ) / 10
        z := (readI16 bytes 16 : ℚ) / 10 }
    recordingHash := toHexString (readU32 bytes 16) }

/-- The analysis record returned by analyzeGesture. The source formats the
four magnitude fields and the sampling rate with toFixed for display; the
numeric values before formatting are modelled here. -/
structure Analysis where
  totalSamples : Nat
  duration : Int
  avgAccelMagnitude : ℚ
  maxAccelMagnitude : ℚ
  avgGyroMagnitude : ℚ
  maxGyroMagnitude : ℚ
  samplingRate : ℚ
deriving DecidableEq, Repr

/-- Math.max over a spread list with the length-positive guard of the source:
the source returns 0 for an empty magnitude list. -/
def maxOfList (l : List ℚ) : ℚ :=
  match l with
  | [] => 0
  | x :: xs => xs.foldl max x

/-- Average with the length-positive guard of the source (0 for empty lists). -/
def avgOfList (l : List ℚ) : ℚ :=
  if 0 < l.length then l.sum / (l.length : ℚ) else 0

/-- The analyzeGesture function of the full screen revision. Returns none
(null) when sessionData is empty. The abstract sq parameter stands for
Math.sqrt applied to the sum of squares; the isNaN-to-zero guards of the
source are identities over rationals (no NaN exists) and are dropped. -/
def analyzeGesture (sq : ℚ → ℚ) (sessionData : List BLEDataPoint) : Option Analysis :=
  if sessionData.length = 0 then none
  else
    let totalSamples := sessionData.length
    let duration : Int :=
      ((sessionData.getLastD default).timestamp : Int)
        - ((sessionData.headD default).timestamp : Int)
    let accMagnitudes := sessionData.map fun point =>
      sq (point.acceleration.x * point.acceleration.x
        + point.acceleration.y * point.acceleration.y
        + point.acceleration.z * point.acceleration.z)
    let gyroMagnitudes := sessionData.map fun point =>
      sq (point.gyroscope.x * point.gyroscope.x
        + point.gyroscope.y * point.gyroscope.y
        + point.gyroscope.z * point.gyroscope.z)
    let avgAccelMagnitude := avgOfList accMagnitudes
    let avgGyroMagnitude := avgOfList gyroMagnitudes
    let maxAccelMagnitude := if 0 < accMagnitudes.length then maxOfList accMagnitudes else 0
    let maxGyroMagnitude := if 0 < gyroMagnitudes.length then maxOfList gyroMagnitudes else 0
    let samplingRate : ℚ :=
      if 0 < duration ∧ 1 < totalSamples then
        (totalSamples : ℚ) / ((duration : ℚ) / 1000)
      else if 1 < totalSamples then
        (totalSamples : ℚ) / 4
      else 0
    some
      { totalSamples := totalSamples
        duration := duration
        avgAccelMagnitude := avgAccelMagnitude
        maxAccelMagnitude := maxAccelMagnitude
        avgGyroMagnitude := avgGyroMagnitude
        maxGyroMagnitude := maxGyroMagnitude
        samplingRate := samplingRate }

/-- A data point as consumed by GestureAPI.convertBLEDataToAPI, whose input
type is any[]: every consulted field may be absent. -/
structure LoosePoint where
  timestamp : Option Nat
  acceleration : Option Axes
  gyroscope : Option Axes
deriving DecidableEq, Repr

/-- A BLEDataPoint viewed through the any[] interface (all fields present). -/
def BLEDataPoint.toLoose (p : BLEDataPoint) : LoosePoint :=
  { timestamp := some p.timestamp
    acceleration := some p.acceleration
    gyroscope := some p.gyroscope }

/-- The IMUDataPoint wire record of GestureAPI.ts. -/
structure IMUDataPoint where
  rel_timestamp : Nat
  recording_id : String
  acc_x : ℚ
  acc_y : ℚ
  acc_z : ℚ
  gyro_x : ℚ
  gyro_y : ℚ
  gyro_z : ℚ
deriving DecidableEq, Repr

/-- The per-record mapping inside GestureAPI.convertBLEDataToAPI (the map
callback, with the point and its index). The JS expression point.timestamp
or-else index*4 treats 0 and an absent field as falsy; the expression
point.acceleration?.x or-else 0 collapses an absent object or an
absent/zero component to 0 (for a present rational component the or-else
is the identity, since only 0 is falsy). -/
def convertPoint (formattedRecordingId : String) (p : Nat × LoosePoint) :
    IMUDataPoint :=
  { rel_timestamp :=
      match p.2.timestamp with
      | some t => if t = 0 then p.1 * 4 else t
      | none => p.1 * 4
    recording_id := formattedRecordingId
    acc_x := match p.2.acceleration with | some a => a.x | none => 0
    acc_y := match p.2.acceleration with | some a => a.y | none => 0
    acc_z := match p.2.acceleration with | some a => a.z | none => 0
    gyro_x := match p.2.gyroscope with | some g => g.x | none => 0
    gyro_y := match p.2.gyroscope with | some g => g.y | none => 0
    gyro_z := match p.2.gyroscope with | some g => g.z | none => 0 }

/-- GestureAPI.convertBLEDataToAPI. Date.now() is the now parameter; the
composite recording id g_ now _ recordingId is computed once and shared by
every produced record. -/
def convertBLEDataToAPI (now : Nat) (bleData : List LoosePoint)
    (recordingId : String) : List IMUDataPoint :=
  let formattedRecordingId := "g_" ++ toString now ++ "_" ++ recordingId
  bleData.enum.map (convertPoint formattedRecordingId)

/-- The CSV header row of GestureAPI.convertToCSV. -/
def csvHeader : String :=
  "rel_timestamp,recording_id,acc_x,acc_y,acc_z,gyro_x,gyro_y,gyro_z"

/-- One CSV row of GestureAPI.convertToCSV. Rational values are rendered
with toString; the source uses JS number formatting, which differs in
notation but not in row structure. -/
def csvRow (point : IMUDataPoint) : String :=
  toString point.rel_timestamp ++ "," ++ point.recording_id ++ ","
    ++ toString point.acc_x ++ "," ++ toString point.acc_y ++ ","
    ++ toString point.acc_z ++ "," ++ toString point.gyro_x ++ ","
    ++ toString point.gyro_y ++ "," ++ toString point.gyro_z

/-- GestureAPI.convertToCSV: returns the empty string for empty data,
otherwise the header row followed by one row per point, joined by newlines. -/
def convertToCSV (data : List IMUDataPoint) : String :=
  if data.length = 0 then ""
  else String.intercalate "\n" (csvHeader :: data.map csvRow)

/-- API_CONFIG.TIMEOUT of constants/API.ts: the request abort bound in ms. -/
def API_TIMEOUT : Nat := 10000

/-- The possible outcomes of the fetch call inside GestureAPI.makeRequest:
a resolved response with a status and body, a rejected promise (network
failure), or an abort fired by the 10-second timeout. -/
inductive FetchOutcome where
  | response (status : Nat) (body : String)
  | networkFailure (msg : String)
  | aborted
deriving DecidableEq, Repr

/-- The typed errors makeRequest throws: a non-2xx response becomes an
HTTP error carrying status and body, an AbortError becomes a timeout
error, and any other rejection is rethrown as a network error. -/
inductive RequestError where
  | httpError (status : Nat) (body : String)
  | timeout
  | network (msg : String)
deriving DecidableEq, Repr

/-- Whether a FetchOutcome is an HTTP failure in the sense of the spec:
network error, timeout, or a response whose status is not 2xx
(Response.ok is 200 <= status < 300). -/
def FetchOutcome.isFailure : FetchOutcome → Bool
  | .response status _ => !(200 ≤ status && status < 300)
  | .networkFailure _ => true
  | .aborted => true

/-- GestureAPI.makeRequest, as a total function of the fetch outcome: the
source checks response.ok, throws on a non-ok status, converts an
AbortError into a timeout error and rethrows other rejections; every
failure is a typed error value, never an unhandled crash. -/
def makeRequest (outcome : FetchOutcome) : Except RequestError String :=
  match outcome with
  | .response status body =>
      if 200 ≤ status && status < 300 then .ok body
      else .error (.httpError status body)
  | .networkFailure msg => .error (.network msg)
  | .aborted => .error .timeout

/-- The React state touched by handleBLEData, with the useState initial
values as the initial state. -/
structure AppState where
  currentSession : Option GestureSession
  sessionData : List BLEDataPoint
  latestDataPoint : Option BLEDataPoint
  lastDataTime : Nat
  totalPacketsReceived : Nat
  realtimeData : List RealtimeDataPoint
  isAnalyzing : Bool
  lastAnalysisResult : Option String
deriving DecidableEq, Repr

/-- All useState initial values: no session, empty buffers, zero counters. -/
def initialState : AppState :=
  { currentSession := none
    sessionData := []
    latestDataPoint := none
    lastDataTime := 0
    totalPacketsReceived := 0
    realtimeData := []
    isAnalyzing := false
    lastAnalysisResult := none }

/-- The observable outcome of one handleBLEData invocation, translated from
the branch taken by the source: the size-mismatch early return, the three
packet-type branches (the session-end alert reports the END timestamp as
duration and sampleId+1 as the declared sample count, and the submission
handed to the inference client when sessionData is nonempty), or the
silent fall-through for an unknown packet type. -/
inductive Event where
  | invalidLength (size : Nat)
  | sessionStarted (sessionId : String)
  | sampleReceived (pt : BLEDataPoint)
  | sessionEnded (durationMs declaredSamples : Nat) (analysis : Option Analysis)
      (submission : Option (String × List IMUDataPoint))
  | unknownType (packetType : Nat)
deriving DecidableEq, Repr

/-- The maxGraphPoints bound of the real-time graph buffer. -/
def maxGraphPoints : Nat := 50

/-- The handleBLEData handler of the full screen revision, over decoded
bytes (the base64 transport decode is upstream). now is Date.now() at
packet receipt; connectedDeviceId is connectedDevice?.id (the or-else
with the string unknown treats an absent device and the empty string as
falsy); sq abstracts Math.sqrt as in analyzeGesture. Each invocation is
one synchronous event-handler run: reads see the current state and the
functional setState updates are applied to it. -/
def handleBLEData (sq : ℚ → ℚ) (now : Nat) (connectedDeviceId : Option String)
    (s : AppState) (bytes : List Nat) : AppState × Event :=
  if bytes.length ≠ 20 then (s, .invalidLength bytes.length)
  else
    let packetType := byteAt bytes 0
    let timestamp := readU16 bytes 2
    let sampleId := readU16 bytes 4
    let recordingHash := readU32 bytes 16
    if packetType = 1 then
      let newSession : GestureSession :=
        { id := toHexString recordingHash
          startTime := now
          endTime := none
          isActive := true
          deviceId :=
            match connectedDeviceId with
            | some d => if d = "" then "unknown" else d
            | none => "unknown"
          samplesReceived := 0 }
      ({ s with currentSession := some newSession
                sessionData := []
                lastAnalysisResult := none
                isAnalyzing := false },
       .sessionStarted newSession.id)
    else if packetType = 2 then
      let pt := decodeDataPoint bytes
      let accMagnitude := sq (pt.acceleration.x * pt.acceleration.x
        + pt.acceleration.y * pt.acceleration.y
        + pt.acceleration.z * pt.acceleration.z)
      let gyroMagnitude := sq (pt.gyroscope.x * pt.gyroscope.x
        + pt.gyroscope.y * pt.gyroscope.y
        + pt.gyroscope.z * pt.gyroscope.z)
      let realtimePoint : RealtimeDataPoint :=
        { time := now
          accMagnitude := accMagnitude
          gyroMagnitude := gyroMagnitude
          accX := pt.acceleration.x, accY := pt.acceleration.y, accZ := pt.acceleration.z
          gyroX := pt.gyroscope.x, gyroY := pt.gyroscope.y, gyroZ := pt.gyroscope.z }
      let newData := s.realtimeData ++ [realtimePoint]
      let newRealtime :=
        if maxGraphPoints < newData.length then newData.drop (newData.length - maxGraphPoints)
        else newData
      let newSession :=
        match s.currentSession with
        | some cs =>
            if cs.isActive then some { cs with samplesReceived := cs.samplesReceived + 1 }
            else some cs
        | none => none
      ({ s with latestDataPoint := some pt
                sessionData := s.sessionData ++ [pt]
                lastDataTime := now
                totalPacketsReceived := s.totalPacketsReceived + 1
                realtimeData := newRealtime
                currentSession := newSession },
       .sampleReceived pt)
    else if packetType = 3 then
      let newSession :=
        match s.currentSession with
        | some cs =>
            if cs.isActive then some { cs with endTime := some now, isActive := false }
            else some cs
        | none => none
      let analysis := analyzeGesture sq s.sessionData
      let submission :=
        match s.sessionData with
        | [] => none
        | first :: _ =>
            let recordingId := if first.recordingHash = "" then "unknown" else first.recordingHash
            some (recordingId, convertBLEDataToAPI now (s.sessionData.map BLEDataPoint.toLoose) recordingId)
      ({ s with currentSession := newSession },
       .sessionEnded timestamp (sampleId + 1) analysis submission)
    else
      (s, .unknownType packetType)

/-- Fold a timed packet sequence through handleBLEData, collecting the
emitted events in order. -/
def runPackets (sq : ℚ → ℚ) (connectedDeviceId : Option String)
    (s : AppState) : List (Nat × List Nat) → AppState × List Event
  | [] => (s, [])
  | (now, bytes) :: rest =>
      let r := handleBLEData sq now connectedDeviceId s bytes
      let tail := runPackets sq connectedDeviceId r.1 rest
      (tail.1, r.2 :: tail.2)

/-- Modelled from the spec: the source files provided declare, render and
clear the sessionHistory list, but the code that inserts a finalized
session into it is not among them; the spec states the list is
most-recent-first and capped at 10 entries, so insertion prepends the
newly finalized session and keeps the first 10. -/
def addToSessionHistory (s : GestureSession) (history : List GestureSession) :
    List GestureSession :=
  (s :: history).take 10

/-- The source expression currentSession?.isActive as a Boolean: whether a
session is currently active. -/
def sessionActive (s : AppState) : Bool :=
  match s.currentSession with
  | some cs => cs.isActive
  | none => false

/-- Whether an event is the session-end outcome. -/
def isSessionEndedEvent : Event → Bool
  | .sessionEnded _ _ _ _ => true
  | _ => false

/-- The declared sample count (END sampleId + 1) carried by a session-end
event. -/
def declaredCountOf : Event → Option Nat
  | .sessionEnded _ d _ _ => some d
  | _ => none

/-- The inference submission (recording id and wire records) carried by a
session-end event. -/
def submissionOf : Event → Option (String × List IMUDataPoint)
  | .sessionEnded _ _ _ sub => sub
  | _ => none

/-- A concrete instantiation of the abstract Math.sqrt parameter, used in
closed statements whose truth does not depend on it. -/
def sqId : ℚ → ℚ := fun q => q

/-- A 20-byte SESSION_START frame with recordingHash 0xABCD at offset 16. -/
def startPktABCD : List Nat :=
  [1, 0, 0, 0, 0, 0, 0, 0, 0, 0, 0, 0, 0, 0, 0, 0, 0xCD, 0xAB, 0, 0]

/-- A 20-byte SESSION_START frame with recordingHash 0x9999. -/
def startPkt9999 : List Nat :=
  [1, 0, 0, 0, 0, 0, 0, 0, 0, 0, 0, 0, 0, 0, 0, 0, 0x99, 0x99, 0, 0]

/-- A 20-byte SENSOR_DATA frame with the given timestamp and sampleId,
acceleration raw (1000, 0, 0) and bytes 52, 18 at offsets 16 and 17 (so
the overlapping hash read yields 0x1234). -/
def dataPkt (ts sid : Nat) : List Nat :=
  [2, 0, ts % 256, ts / 256 % 256, sid % 256, sid / 256 % 256,
   232, 3, 0, 0, 0, 0, 0, 0, 0, 0, 52, 18, 0, 0]

/-- A 20-byte SESSION_END frame with duration 300 ms, final sampleId 4 and
recordingHash 0xABCD. -/
def endPkt : List Nat :=
  [3, 0, 44, 1, 4, 0, 0, 0, 0, 0, 0, 0, 0, 0, 0, 0, 0xCD, 0xAB, 0, 0]

/-- The timed packet sequence START, five DATA, END. -/
def seqStartDataEnd : List (Nat × List Nat) :=
  [(1000, startPktABCD), (1100, dataPkt 0 0), (1101, dataPkt 4 1),
   (1102, dataPkt 8 2), (1103, dataPkt 12 3), (1104, dataPkt 16 4),
   (2000, endPkt)]

/-- The state and events after running the START, DATA times 5, END
sequence from the initial state. -/
def runStartDataEnd : AppState × List Event :=
  runPackets sqId (some "dev") initialState seqStartDataEnd

/-- C1: running START(hash 0xABCD), five DATA packets, then END(sampleId 4)
from the initial state leaves exactly one finalized session: isActive is
false, endTime is set, the sample buffer holds 5 samples, the session id
is the lowercase hex string abcd, and the declared sample count reported
by the END handler (sampleId + 1) is 5; exactly one session-end event is
emitted. -/
theorem c1_start_data_end_sequence :
    runStartDataEnd.1.currentSession =
      some { id := "abcd", startTime := 1000, endTime := some 2000,
             isActive := false, deviceId := "dev", samplesReceived := 5 }
    ∧ runStartDataEnd.1.sessionData.length = 5
    ∧ (runStartDataEnd.2.filter isSessionEndedEvent).length = 1
    ∧ runStartDataEnd.2.getLast?.bind declaredCountOf = some 5 := by
  decide

/-- C3 counterexample: summarizing the empty sample list returns null (an
absent result), not an all-zero summary record. -/
theorem c3_counterexample_empty_returns_null :
    analyzeGesture sqId [] = none := by
  decide

/-- C3 amended: summarizing the empty sample list returns an absent (null)
result, whatever function stands for Math.sqrt; no exception is raised
(the embedded handler is a total function) and no NaN is produced. -/
theorem c3_empty_analysis_is_null (sq : ℚ → ℚ) :
    analyzeGesture sq [] = none := by
  simp [analyzeGesture]

/-- C7: a decoded byte sequence whose length is not 20 is rejected with the
invalid-length outcome and the state is returned unchanged: no session,
sample buffer or counter mutation occurs. -/
theorem c7_invalid_length_no_mutation (sq : ℚ → ℚ) (now : Nat)
    (connectedDeviceId : Option String) (s : AppState) (bytes : List Nat)
    (h : bytes.length ≠ 20) :
    handleBLEData sq now connectedDeviceId s bytes = (s, .invalidLength bytes.length) := by
  simp [handleBLEData, h]

/-- C7 witness: a concrete 3-byte frame is rejected without mutating a
concrete state. -/
theorem c7_invalid_length_witness :
    ([1, 2, 3] : List Nat).length ≠ 20
    ∧ handleBLEData sqId 5 none initialState [1, 2, 3] =
        (initialState, .invalidLength 3) :=
  ⟨by decide, c7_invalid_length_no_mutation sqId 5 none initialState [1, 2, 3] (by decide)⟩

/-- C2 counterexample: a DATA packet handled while no session is active is
not discarded: from the initial state (no active session) the sample is
appended to the sessionData buffer, and the handler reports a plain
sample-received outcome, not an ignored(no-active-session) report. -/
theorem c2_counterexample_data_is_buffered :
    sessionActive initialState = false
    ∧ (handleBLEData sqId 7 none initialState (dataPkt 0 0)).1.sessionData
        = [decodeDataPoint (dataPkt 0 0)]
    ∧ (handleBLEData sqId 7 none initialState (dataPkt 0 0)).2
        = .sampleReceived (decodeDataPoint (dataPkt 0 0)) := by
  have hlen : (dataPkt 0 0).length = 20 := by decide
  have htype : byteAt (dataPkt 0 0) 0 = 2 := by decide
  refine ⟨rfl, ?_, ?_⟩
  · simp [handleBLEData, hlen, htype, initialState]
  · simp [handleBLEData, hlen, htype]

/-- C2 amended: a DATA packet handled while no session is active is still
appended to the sessionData buffer and reported as a normal sample event
(no ignored report exists in the handler); the session slot is unchanged
(in particular no counter of any session is incremented), the handler does
not throw, and a subsequent START packet creates a new active session
normally, resetting the buffer. -/
theorem c2_data_without_active_session (sq : ℚ → ℚ) (now : Nat)
    (devId : Option String) (s : AppState) (bytes : List Nat)
    (hlen : bytes.length = 20) (htype : byteAt bytes 0 = 2)
    (hidle : sessionActive s = false) :
    (handleBLEData sq now devId s bytes).1.sessionData
        = s.sessionData ++ [decodeDataPoint bytes]
    ∧ (handleBLEData sq now devId s bytes).1.currentSession = s.currentSession
    ∧ (handleBLEData sq now devId s bytes).2 = .sampleReceived (decodeDataPoint bytes)
    ∧ ∀ now2 devId2 bytes2, bytes2.length = 20 → byteAt bytes2 0 = 1 →
        sessionActive (handleBLEData sq now2 devId2 (handleBLEData sq now devId s bytes).1 bytes2).1 = true
        ∧ (handleBLEData sq now2 devId2 (handleBLEData sq now devId s bytes).1 bytes2).1.sessionData = [] := by
  have hsess : (handleBLEData sq now devId s bytes).1.currentSession = s.currentSession := by
    rcases hcs : s.currentSession with _ | cs
    · simp [handleBLEData, hlen, htype, hcs]
    · have hact : cs.isActive = false := by simpa [sessionActive, hcs] using hidle
      simp [handleBLEData, hlen, htype, hcs, hact]
  refine ⟨?_, hsess, ?_, ?_⟩
  · simp [handleBLEData, hlen, htype]
  · simp [handleBLEData, hlen, htype]
  · intro now2 devId2 bytes2 hlen2 hstart2
    constructor
    · simp [handleBLEData, hlen2, hstart2, sessionActive]
    · simp [handleBLEData, hlen2, hstart2]

/-- C4: for a non-empty sample list, the sampling rate of the summary is
totalSamples divided by durationMs over 1000 when the duration is positive
and there is more than one sample, otherwise totalSamples over 4 when
there is more than one sample, otherwise 0, where durationMs is the
timestamp of the last sample minus the timestamp of the first. -/
theorem c4_sampling_rate_formula (sq : ℚ → ℚ) (data : List BLEDataPoint)
    (h : data ≠ []) :
    (analyzeGesture sq data).map Analysis.samplingRate =
      some (if 0 < ((data.getLastD default).timestamp : Int)
                    - ((data.headD default).timestamp : Int)
               ∧ 1 < data.length then
              (data.length : ℚ) /
                (((((data.getLastD default).timestamp : Int)
                    - ((data.headD default).timestamp : Int) : Int) : ℚ) / 1000)
            else if 1 < data.length then (data.length : ℚ) / 4
            else 0) := by
  have hl : data.length ≠ 0 := by simpa using h
  simp [analyzeGesture, hl]

/-- A first concrete sample: timestamp 0, unit acceleration on x. -/
def ptA : BLEDataPoint :=
  { timestamp := 0, sampleId := 0, acceleration := ⟨1, 0, 0⟩,
    gyroscope := ⟨0, 0, 0⟩, recordingHash := "1234" }

/-- A second concrete sample, 1000 ms after the first. -/
def ptB : BLEDataPoint :=
  { timestamp := 1000, sampleId := 1, acceleration := ⟨1, 0, 0⟩,
    gyroscope := ⟨0, 0, 0⟩, recordingHash := "1234" }

/-- C4 witness: two samples 1000 ms apart give sampling rate 2. -/
theorem c4_sampling_rate_witness :
    ([ptA, ptB] : List BLEDataPoint) ≠ []
    ∧ (analyzeGesture sqId [ptA, ptB]).map Analysis.samplingRate = some 2 :=
  ⟨by decide, (c4_sampling_rate_formula sqId [ptA, ptB] (by decide)).trans
    (by norm_num [ptA, ptB, List.getLastD, List.headD])⟩

/-- C5 (history maintenance modelled from the spec, the inserting code not
being among the provided source files): inserting a finalized session into
the session history places it at the front (most-recent-first) and the
resulting history never exceeds 10 entries. -/
theorem c5_history_retention (s : GestureSession) (history : List GestureSession) :
    (addToSessionHistory s history).head? = some s
    ∧ s ∈ addToSessionHistory s history
    ∧ (addToSessionHistory s history).length ≤ 10 := by
  refine ⟨rfl, ?_, ?_⟩
  · show s ∈ s :: history.take 9
    exact List.mem_cons_self s _
  · simp only [addToSessionHistory, List.length_take]
    omega

/-- C3 amended witness: the empty-input behavior at a concrete function
standing for Math.sqrt. -/
theorem c3_empty_analysis_witness :
    analyzeGesture (fun q => q + 1) [] = none :=
  c3_empty_analysis_is_null (fun q => q + 1)

/-- A concrete finalized session record. -/
def sessW : GestureSession :=
  { id := "abcd", startTime := 1, endTime := some 2, isActive := false,
    deviceId := "dev", samplesReceived := 5 }

/-- C5 witness: inserting a concrete finalized session into an empty
history. -/
theorem c5_history_retention_witness :
    (addToSessionHistory sessW []).head? = some sessW
    ∧ sessW ∈ addToSessionHistory sessW []
    ∧ (addToSessionHistory sessW []).length ≤ 10 :=
  c5_history_retention sessW []

/-- The state after a first START while no session exists. -/
def stateAfterStart : AppState :=
  (handleBLEData sqId 1000 (some "dev") initialState startPktABCD).1

/-- C6 counterexample: a second START arriving while a session is active
emits exactly the same plain session-started report as a START arriving
with no active session: the abandonment of the first session is not
reported as an anomaly (the handler has no anomaly outcome at all). -/
theorem c6_counterexample_no_anomaly_report :
    sessionActive stateAfterStart = true
    ∧ (handleBLEData sqId 1500 (some "dev") stateAfterStart startPkt9999).2
        = .sessionStarted "9999"
    ∧ (handleBLEData sqId 1500 (some "dev") initialState startPkt9999).2
        = .sessionStarted "9999" := by
  decide

/-- C6 amended: the state holds at most one session (a single option-valued
slot); a START received in any state, in particular while a session is
active, silently installs a fresh active session with an empty sample
buffer and zero sample count, emitting only the plain session-started
report, and no previously buffered sample remains reachable in the new
buffer, so none can enter the new summary or inference submission. -/
theorem c6_restart_isolates_sessions (sq : ℚ → ℚ) (now : Nat)
    (devId : Option String) (s : AppState) (bytes : List Nat)
    (hlen : bytes.length = 20) (hstart : byteAt bytes 0 = 1) :
    (handleBLEData sq now devId s bytes).1.sessionData = []
    ∧ (∃ ns, (handleBLEData sq now devId s bytes).1.currentSession = some ns
        ∧ ns.isActive = true ∧ ns.samplesReceived = 0
        ∧ ns.id = toHexString (readU32 bytes 16) ∧ ns.startTime = now)
    ∧ (handleBLEData sq now devId s bytes).2
        = .sessionStarted (toHexString (readU32 bytes 16))
    ∧ ∀ pt ∈ s.sessionData, pt ∉ (handleBLEData sq now devId s bytes).1.sessionData := by
  refine ⟨?_, ?_, ?_, ?_⟩
  · simp [handleBLEData, hlen, hstart]
  · refine ⟨{ id := toHexString (readU32 bytes 16), startTime := now,
              endTime := none, isActive := true,
              deviceId := match devId with
                          | some d => if d = "" then "unknown" else d
                          | none => "unknown",
              samplesReceived := 0 }, ?_, rfl, rfl, rfl, rfl⟩
    simp [handleBLEData, hlen, hstart]
  · simp [handleBLEData, hlen, hstart]
  · intro pt _
    simp [handleBLEData, hlen, hstart]

/-- C6 witness: the amended statement applied to the concrete second START
of the counterexample situation. -/
theorem c6_restart_witness :
    (handleBLEData sqId 1500 (some "dev") stateAfterStart startPkt9999).1.sessionData = []
    ∧ (handleBLEData sqId 1500 (some "dev") stateAfterStart startPkt9999).2
        = .sessionStarted (toHexString (readU32 startPkt9999 16)) :=
  ⟨(c6_restart_isolates_sessions sqId 1500 (some "dev") stateAfterStart startPkt9999
      (by decide) (by decide)).1,
   (c6_restart_isolates_sessions sqId 1500 (some "dev") stateAfterStart startPkt9999
      (by decide) (by decide)).2.2.1⟩

/-- C2 witness: the amended C2 statement applied to a concrete DATA packet
in the initial state, projected to the buffered-sample conjunct. -/
theorem c2_data_without_active_session_witness :
    (handleBLEData sqId 7 none initialState (dataPkt 4 1)).1.sessionData
        = initialState.sessionData ++ [decodeDataPoint (dataPkt 4 1)]
    ∧ (handleBLEData sqId 7 none initialState (dataPkt 4 1)).1.currentSession
        = initialState.currentSession :=
  ⟨(c2_data_without_active_session sqId 7 none initialState (dataPkt 4 1)
      (by decide) (by decide) (by decide)).1,
   (c2_data_without_active_session sqId 7 none initialState (dataPkt 4 1)
      (by decide) (by decide) (by decide)).2.1⟩

/-- C8 counterexample: converting zero samples to CSV yields the empty
string, not the header row followed by zero rows. -/
theorem c8_counterexample_empty_csv_has_no_header :
    convertToCSV [] = "" ∧ convertToCSV [] ≠ csvHeader := by
  refine ⟨rfl, ?_⟩
  decide

/-- C8 amended: converting zero samples yields the empty string (the
header is omitted); for a non-empty sample list the CSV is the header row
followed by one row per sample, newline-joined; and every HTTP failure of
a request (network error, timeout abort, non-2xx status) is a typed error
result of the total request function, never an unhandled crash. -/
theorem c8_zero_sample_csv_and_typed_errors (data : List IMUDataPoint)
    (o : FetchOutcome) :
    (data = [] → convertToCSV data = "")
    ∧ (data ≠ [] → convertToCSV data =
        String.intercalate "\n" (csvHeader :: data.map csvRow))
    ∧ (o.isFailure = true → ∃ e, makeRequest o = Except.error e) := by
  refine ⟨?_, ?_, ?_⟩
  · intro h
    simp [convertToCSV, h]
  · intro h
    have hl : data.length ≠ 0 := by simpa using h
    simp [convertToCSV, hl]
  · intro h
    cases o with
    | response status body =>
        have hb : (200 ≤ status && status < 300) = false := by
          have h2 := h
          simp only [FetchOutcome.isFailure, Bool.not_eq_true'] at h2
          exact h2
        exact ⟨.httpError status body, by simp [makeRequest, hb]⟩
    | networkFailure msg => exact ⟨.network msg, rfl⟩
    | aborted => exact ⟨.timeout, rfl⟩

/-- A concrete wire record. -/
def ptW : IMUDataPoint :=
  { rel_timestamp := 0, recording_id := "g_1_ab", acc_x := 1, acc_y := 0,
    acc_z := 0, gyro_x := 0, gyro_y := 0, gyro_z := 0 }

/-- C8 witness: the amended statement applied to one concrete record and a
concrete 500 response. -/
theorem c8_csv_and_errors_witness :
    convertToCSV [ptW] = String.intercalate "\n" (csvHeader :: [ptW].map csvRow)
    ∧ ∃ e, makeRequest (.response 500 "oops") = Except.error e :=
  ⟨(c8_zero_sample_csv_and_typed_errors [ptW] (.response 500 "oops")).2.1
      (by decide),
   (c8_zero_sample_csv_and_typed_errors [ptW] (.response 500 "oops")).2.2
      (by decide)⟩

/-- C9 counterexample: in the START, five DATA, END run the finalized
session has id abcd (from the START recordingHash 0xABCD), but the
inference submission is built with recording id 1234 (the overlapping
hash field of the first DATA packet), and every wire record carries
recording_id g_2000_1234, which differs from the composite of the
wall-clock time and the session id, g_2000_abcd. -/
theorem c9_counterexample_submission_id_not_session_id :
    runStartDataEnd.1.currentSession.map GestureSession.id = some "abcd"
    ∧ (runStartDataEnd.2.getLast?.bind submissionOf).map Prod.fst = some "1234"
    ∧ ((runStartDataEnd.2.getLast?.bind submissionOf).map
        (fun sub => sub.2.all fun r => r.recording_id == "g_2000_1234")) = some true
    ∧ ("g_2000_1234" : String) ≠ "g_2000_abcd" := by
  decide

/-- C9 amended: on END with a non-empty sample buffer, the submission
recording id is the recordingHash field of the first buffered sample (or
the string unknown when that field is empty), not necessarily the session
id, and every wire record of the submission carries the same composite
recording_id g_ now _ rid. -/
theorem c9_submission_recording_id (sq : ℚ → ℚ) (now : Nat)
    (devId : Option String) (s : AppState) (bytes : List Nat)
    (hlen : bytes.length = 20) (hend : byteAt bytes 0 = 3)
    (hne : s.sessionData ≠ []) :
    ∃ rid records,
      (handleBLEData sq now devId s bytes).2 =
        .sessionEnded (readU16 bytes 2) (readU16 bytes 4 + 1)
          (analyzeGesture sq s.sessionData) (some (rid, records))
      ∧ rid = (if (s.sessionData.headD default).recordingHash = "" then "unknown"
               else (s.sessionData.headD default).recordingHash)
      ∧ ∀ r ∈ records, r.recording_id = "g_" ++ toString now ++ "_" ++ rid := by
  rcases hsd : s.sessionData with _ | ⟨first, rest⟩
  · exact absurd hsd hne
  · refine ⟨if first.recordingHash = "" then "unknown" else first.recordingHash,
      convertBLEDataToAPI now ((first :: rest).map BLEDataPoint.toLoose)
        (if first.recordingHash = "" then "unknown" else first.recordingHash),
      ?_, by simp, ?_⟩
    · simp [handleBLEData, hlen, hend, hsd]
    · intro r hr
      rcases List.mem_map.mp hr with ⟨p, _, rfl⟩
      rfl

/-- A concrete state holding one buffered sample and no session. -/
def stateOneSample : AppState := { initialState with sessionData := [ptA] }

/-- C9 witness: the amended statement applied to a concrete END packet in a
state with one buffered sample. -/
theorem c9_submission_recording_id_witness :
    ∃ rid records,
      (handleBLEData sqId 2000 none stateOneSample endPkt).2 =
        .sessionEnded (readU16 endPkt 2) (readU16 endPkt 4 + 1)
          (analyzeGesture sqId stateOneSample.sessionData) (some (rid, records))
      ∧ rid = (if (stateOneSample.sessionData.headD default).recordingHash = ""
               then "unknown"
               else (stateOneSample.sessionData.headD default).recordingHash)
      ∧ ∀ r ∈ records, r.recording_id = "g_" ++ toString 2000 ++ "_" ++ rid :=
  c9_submission_recording_id sqId 2000 none stateOneSample endPkt
    (by decide) (by decide) (by simp [stateOneSample])

/-- C10: for every input list, the wire record at index i keeps a nonzero
timestamp as rel_timestamp, replaces a zero or absent timestamp by 4
times the index, and maps absent acceleration or gyroscope objects to
all-zero components. -/
theorem c10_rel_timestamp_and_defaults (now : Nat) (recId : String)
    (data : List LoosePoint) (i : Nat) (pt : LoosePoint)
    (h : data.get? i = some pt) :
    ∃ r, (convertBLEDataToAPI now data recId).get? i = some r
      ∧ (pt.timestamp = none → r.rel_timestamp = 4 * i)
      ∧ (pt.timestamp = some 0 → r.rel_timestamp = 4 * i)
      ∧ (∀ t, pt.timestamp = some t → t ≠ 0 → r.rel_timestamp = t)
      ∧ (pt.acceleration = none → r.acc_x = 0 ∧ r.acc_y = 0 ∧ r.acc_z = 0)
      ∧ (pt.gyroscope = none → r.gyro_x = 0 ∧ r.gyro_y = 0 ∧ r.gyro_z = 0) := by
  refine ⟨convertPoint ("g_" ++ toString now ++ "_" ++ recId) (i, pt),
    ?_, ?_, ?_, ?_, ?_, ?_⟩
  · simp only [convertBLEDataToAPI, List.get?_map, List.get?_enum, h,
      Option.map_some']
  · intro ht
    simp [convertPoint, ht, Nat.mul_comm]
  · intro ht
    simp [convertPoint, ht, Nat.mul_comm]
  · intro t ht htne
    simp [convertPoint, ht, htne]
  · intro ha
    simp [convertPoint, ha]
  · intro hg
    simp [convertPoint, hg]

/-- A concrete loose point with zero timestamp and absent sensor objects. -/
def lpA : LoosePoint := { timestamp := some 0, acceleration := none, gyroscope := none }

/-- A concrete loose point with nonzero timestamp and a present
acceleration object. -/
def lpB : LoosePoint :=
  { timestamp := some 7, acceleration := some ⟨1, 0, 0⟩, gyroscope := none }

/-- C10 witness: the statement applied to a concrete two-point list at
index 1. -/
theorem c10_rel_timestamp_witness :
    ∃ r, (convertBLEDataToAPI 123 [lpA, lpB] "ab").get? 1 = some r
      ∧ (lpB.timestamp = none → r.rel_timestamp = 4 * 1)
      ∧ (lpB.timestamp = some 0 → r.rel_timestamp = 4 * 1)
      ∧ (∀ t, lpB.timestamp = some t → t ≠ 0 → r.rel_timestamp = t)
      ∧ (lpB.acceleration = none → r.acc_x = 0 ∧ r.acc_y = 0 ∧ r.acc_z = 0)
      ∧ (lpB.gyroscope = none → r.gyro_x = 0 ∧ r.gyro_y = 0 ∧ r.gyro_z = 0) :=
  c10_rel_timestamp_and_defaults 123 "ab" [lpA, lpB] 1 lpB rfl

end Abracadabra
